import Mathlib

/-!
Verification of the PersonaForge Studio RunPod handler
(`packages/runpod-studio/handler.py`).

The development shallowly embeds the render-pipeline orchestrator: the
quality-preset table, the per-stage fallback logic, the three job handlers
and the top-level dispatcher.  External processes (ffmpeg invocations,
neural-model inference) are modelled by explicit outcome oracles: each
external step either completes with an exit status or raises, and the
embedded control flow reproduces the Python try/except and returncode
checks around it.  Media artifacts are modelled symbolically, so that
"this stage copied its input forward unchanged" is provable as equality
of `Media` values.
-/

/-- Outcome of one `subprocess.run` style external invocation: the process
either completes with an exit status, or the call raises before completion
(e.g. the executable is missing). -/
inductive RunOutcome where
  | completed (exitCode : Nat)
  | raised (msg : String)
deriving DecidableEq, Repr

/-- Semantics of `subprocess.run(..., check=True)`: a nonzero exit status
raises `CalledProcessError`, an OS-level failure raises as well. -/
def runChecked (r : RunOutcome) : Except String Unit :=
  match r with
  | .completed 0 => .ok ()
  | .completed c => .error ("CalledProcessError: returncode " ++ toString c)
  | .raised m => .error m

/-- One entry of `QUALITY_PRESETS` (handler.py lines 54-132).  Keys that are
absent from some tiers (`color_grading`, `temporal_smoothing`, `film_grain`)
default to the value `dict.get` returns at each use site. -/
structure Preset where
  fps : Nat
  batch_size : Nat
  face_enhance : Bool
  upscale : Bool
  upscale_factor : Nat
  video_bitrate : String
  audio_bitrate : String
  crf : Nat
  preset : String
  color_grading : Bool := false
  temporal_smoothing : Bool := false
  film_grain : ℚ := 0
deriving DecidableEq, Repr

def realtimePreset : Preset :=
  { fps := 25, batch_size := 16, face_enhance := false, upscale := false,
    upscale_factor := 1, video_bitrate := "2M", audio_bitrate := "128k",
    crf := 28, preset := "ultrafast" }

def draftPreset : Preset :=
  { fps := 25, batch_size := 8, face_enhance := false, upscale := false,
    upscale_factor := 1, video_bitrate := "4M", audio_bitrate := "128k",
    crf := 26, preset := "fast" }

def standardPreset : Preset :=
  { fps := 30, batch_size := 4, face_enhance := true, upscale := false,
    upscale_factor := 1, video_bitrate := "8M", audio_bitrate := "192k",
    crf := 23, preset := "medium" }

def highPreset : Preset :=
  { fps := 30, batch_size := 2, face_enhance := true, upscale := true,
    upscale_factor := 2, video_bitrate := "12M", audio_bitrate := "256k",
    crf := 20, preset := "slow" }

def pixarPreset : Preset :=
  { fps := 30, batch_size := 1, face_enhance := true, upscale := true,
    upscale_factor := 2, video_bitrate := "20M", audio_bitrate := "320k",
    crf := 17, preset := "slow", color_grading := true,
    temporal_smoothing := true }

def cinemaPreset : Preset :=
  { fps := 30, batch_size := 1, face_enhance := true, upscale := true,
    upscale_factor := 4, video_bitrate := "40M", audio_bitrate := "320k",
    crf := 14, preset := "veryslow", color_grading := true,
    temporal_smoothing := true, film_grain := 2/100 }

/-- The `QUALITY_PRESETS` table, in source order. -/
def QUALITY_PRESETS : List (String × Preset) :=
  [("realtime", realtimePreset), ("draft", draftPreset),
   ("standard", standardPreset), ("high", highPreset),
   ("pixar", pixarPreset), ("cinema", cinemaPreset)]

/-- `QUALITY_PRESETS.get(quality, QUALITY_PRESETS["standard"])`, the tier
resolution expression used verbatim at all three consuming call sites
(handler.py lines 769, 1138, 1270). -/
def resolvePreset (quality : String) : Preset :=
  (QUALITY_PRESETS.lookup quality).getD standardPreset

/-- The six tier names, in increasing quality order. -/
def tierOrder : List String :=
  ["realtime", "draft", "standard", "high", "pixar", "cinema"]

/-- A list of naturals is non-increasing from head to tail. -/
def nonIncreasing : List Nat → Bool
  | [] => true
  | [_] => true
  | a :: b :: rest => b ≤ a && nonIncreasing (b :: rest)

/-- Claim C5: across the six quality tiers in the order realtime, draft,
standard, high, pixar, cinema, the crf value is non-increasing and the
batch_size value is non-increasing. -/
theorem tier_crf_and_batch_size_non_increasing :
    nonIncreasing (tierOrder.map (fun t => (resolvePreset t).crf)) = true ∧
    nonIncreasing (tierOrder.map (fun t => (resolvePreset t).batch_size)) = true := by
  decide

/-- Claim C4: resolving any tier name that is not one of the six known
tiers yields the standard profile; the resolver is a total function, so it
never raises, and all three call sites in the source consume the same
expression embedded here as `resolvePreset`. -/
theorem unknown_tier_resolves_to_standard (q : String) (h : q ∉ tierOrder) :
    resolvePreset q = standardPreset := by
  simp only [tierOrder, List.mem_cons, List.not_mem_nil, or_false, not_or] at h
  obtain ⟨h1, h2, h3, h4, h5, h6⟩ := h
  have e1 : (q == "realtime") = false := beq_eq_false_iff_ne.mpr h1
  have e2 : (q == "draft") = false := beq_eq_false_iff_ne.mpr h2
  have e3 : (q == "standard") = false := beq_eq_false_iff_ne.mpr h3
  have e4 : (q == "high") = false := beq_eq_false_iff_ne.mpr h4
  have e5 : (q == "pixar") = false := beq_eq_false_iff_ne.mpr h5
  have e6 : (q == "cinema") = false := beq_eq_false_iff_ne.mpr h6
  simp [resolvePreset, QUALITY_PRESETS, List.lookup, e1, e2, e3, e4, e5, e6]

/-- Witness for claim C4 at the concrete unknown tier name "turbo". -/
theorem unknown_tier_resolves_to_standard_witness :
    "turbo" ∉ tierOrder ∧ resolvePreset "turbo" = standardPreset :=
  ⟨by decide, unknown_tier_resolves_to_standard "turbo" (by decide)⟩

/-- One caption entry: the source dict has keys text, start, end.
The last is spelled `endT` here because `end` is reserved in Lean. -/
structure Caption where
  text : String
  start : ℚ
  endT : ℚ
deriving DecidableEq, Repr

/-- Caption styling; the field defaults are the `dict.get` defaults used
inside `burn_captions` (handler.py lines 1071-1075). -/
structure CaptionStyle where
  font_size : Nat := 48
  color : String := "white"
  stroke_color : String := "black"
  stroke_width : Nat := 2
  position_y : ℚ := 75/100
deriving DecidableEq, Repr

/-- One sound-effect cue as prepared by `handle_video_render`
(handler.py lines 1303-1311). -/
structure SfxSpec where
  url : String
  start_time : ℚ := 0
  volume : ℚ := 1/2
deriving DecidableEq, Repr

/-- Ducking parameters; defaults are the dict literal at
handler.py lines 1355-1359. -/
structure DuckingConfig where
  base_volume : ℚ := 15/100
  attack_ms : Nat := 50
  release_ms : Nat := 300
deriving DecidableEq, Repr

/-- Output format specification; defaults are the dict literal at
handler.py line 1387. -/
structure FormatSpec where
  width : Nat := 1080
  height : Nat := 1920
  fps : Nat := 30
deriving DecidableEq, Repr

/-- One requested persona take; defaults per the `dict.get` calls at
handler.py lines 1472-1474 and 1498-1501. -/
structure TakeSpec where
  emotion : String := "neutral"
  angle : String := "front"
deriving DecidableEq, Repr

/-- Symbolic media artifacts.  A constructor application records which
transformation produced the file and with which parameters, so two paths
hold byte-identical content exactly when their `Media` values are equal
(`shutil.copy` keeps the same `Media` value). -/
inductive Media where
  | file (ref : String)
  | musetalk (image voice : Media) (fps batch : Nat)
  | wav2lip (image voice : Media) (fps : Nat)
  | staticMux (image voice : Media)
  | enhanced (v : Media)
  | upscaled (v : Media) (scale : Nat) (smoothed : Bool)
  | graded (v : Media) (style : String)
  | grained (v : Media) (intensity : ℚ)
  | mixedAudioTrack (voice : Media) (musicRef ambienceRef : Option String)
      (sfxRefs : List String) (base_volume : ℚ)
  | captioned (v : Media) (captions : List Caption) (style : CaptionStyle)
  | encoded (v : Media) (crf : Nat) (presetName vBitrate aBitrate : String)
  | muxed (video track : Media) (crf : Nat) (presetName vBitrate aBitrate : String)
  | thumbnail (v : Media)
  | idleLoop (image : Media) (seconds : Nat)
deriving DecidableEq, Repr

/-- `enhance_face_in_video` (handler.py lines 896-970).  The whole body -
GFPGAN setup, the frame loop and the check=True ffmpeg remux - sits in one
try block whose except clause copies the input to the output.  `gfpganExc`
is `some msg` when anything up to the frame loop raises; `remux` is the
outcome of the re-encode command. -/
def enhance_face_in_video (gfpganExc : Option String) (remux : RunOutcome)
    (input : Media) : Media :=
  match gfpganExc with
  | some _ => input
  | none =>
    match runChecked remux with
    | .error _ => input
    | .ok _ => .enhanced input

/-- `upscale_video_realesrgan` (handler.py lines 306-403): same try/except
shape as face enhancement; on any exception the input is copied forward. -/
def upscale_video_realesrgan (primaryExc : Option String) (remux : RunOutcome)
    (input : Media) (scale : Nat) (apply_temporal_smoothing : Bool) : Media :=
  match primaryExc with
  | some _ => input
  | none =>
    match runChecked remux with
    | .error _ => input
    | .ok _ => .upscaled input scale apply_temporal_smoothing

/-- `apply_color_grading` (handler.py lines 406-433): one check=True ffmpeg
run inside try; the except clause copies the input forward. -/
def apply_color_grading (run : RunOutcome) (input : Media) (style : String) : Media :=
  match runChecked run with
  | .error _ => input
  | .ok _ => .graded input style

/-- `add_film_grain` (handler.py lines 436-454): one check=True ffmpeg run
inside try; the except clause copies the input forward. -/
def add_film_grain (run : RunOutcome) (input : Media) (intensity : ℚ) : Media :=
  match runChecked run with
  | .error _ => input
  | .ok _ => .grained input intensity

/-- `mix_audio` (handler.py lines 976-1051).  The ffmpeg invocation is NOT
inside a try block and is run without check=True: a completed process with
nonzero exit status triggers the copy-the-voice-track fallback, but an
exception raised by the invocation itself propagates out of the stage. -/
def audio_mix (run : RunOutcome) (voice : Media) (musicRef ambienceRef : Option String)
    (sfx : List SfxSpec) (ducking : DuckingConfig) : Except String Media :=
  match run with
  | .raised m => .error m
  | .completed c =>
    if c = 0 then
      .ok (.mixedAudioTrack voice musicRef ambienceRef
        (sfx.map (fun s => s.url)) ducking.base_volume)
    else
      .ok voice

/-- `burn_captions` (handler.py lines 1057-1109).  An empty caption list
returns a copy of the input before any command is built; otherwise the
drawtext ffmpeg command runs without check=True and a nonzero exit copies
the input forward.  The Bool records whether the drawtext command was
invoked. -/
def burn_captions (run : RunOutcome) (video : Media) (captions : List Caption)
    (style : CaptionStyle) : Except String (Media × Bool) :=
  if captions.isEmpty then
    .ok (video, false)
  else
    match run with
    | .raised m => .error m
    | .completed c =>
      if c = 0 then .ok (.captioned video captions style, true)
      else .ok (video, true)

/-- Claim C7: with an empty caption list the caption burn-in stage is a
no-op pass-through: the output artifact equals the input artifact, no
drawtext transformation is invoked (the invocation flag is false), and the
result does not depend on the ffmpeg outcome oracle at all. -/
theorem empty_caption_list_is_noop (run : RunOutcome) (video : Media)
    (style : CaptionStyle) :
    burn_captions run video [] style = .ok (video, false) ∧
    ∀ run2, burn_captions run video [] style = burn_captions run2 video [] style := by
  exact ⟨rfl, fun _ => rfl⟩

/-- Claim C2, amended: when a non-mandatory stage's processing fails, the
four try-wrapped stages (face restoration, upscale, color grading, film
grain) output an unmodified copy of their input for every kind of failure,
and the audio mix copies the voice track forward when its ffmpeg command
completes with a nonzero exit status.  (An exception raised while invoking
the audio-mix command instead propagates - see the counterexample.) -/
theorem nonmandatory_stage_failure_copies_input
    (input voice : Media) (musicRef ambienceRef : Option String)
    (sfx : List SfxSpec) (ducking : DuckingConfig)
    (excMsg : String) (remux gr fgr : RunOutcome)
    (scale : Nat) (smooth : Bool) (style : String) (intensity : ℚ) (c : Nat)
    (hgr : gr ≠ .completed 0) (hfgr : fgr ≠ .completed 0) (hc : c ≠ 0) :
    enhance_face_in_video (some excMsg) remux input = input ∧
    (∀ fr2, fr2 ≠ RunOutcome.completed 0 →
      enhance_face_in_video none fr2 input = input) ∧
    upscale_video_realesrgan (some excMsg) remux input scale smooth = input ∧
    (∀ ur2, ur2 ≠ RunOutcome.completed 0 →
      upscale_video_realesrgan none ur2 input scale smooth = input) ∧
    apply_color_grading gr input style = input ∧
    add_film_grain fgr input intensity = input ∧
    audio_mix (.completed c) voice musicRef ambienceRef sfx ducking = .ok voice := by
  have runErr : ∀ r : RunOutcome, r ≠ .completed 0 → ∃ m, runChecked r = .error m := by
    intro r hr
    match r with
    | .completed 0 => exact absurd rfl hr
    | .completed (n+1) => exact ⟨_, rfl⟩
    | .raised m => exact ⟨m, rfl⟩
  refine ⟨rfl, ?_, rfl, ?_, ?_, ?_, ?_⟩
  · intro fr2 h2
    obtain ⟨m, hm⟩ := runErr fr2 h2
    simp [enhance_face_in_video, hm]
  · intro ur2 h2
    obtain ⟨m, hm⟩ := runErr ur2 h2
    simp [upscale_video_realesrgan, hm]
  · obtain ⟨m, hm⟩ := runErr gr hgr
    simp [apply_color_grading, hm]
  · obtain ⟨m, hm⟩ := runErr fgr hfgr
    simp [add_film_grain, hm]
  · simp [audio_mix, hc]

/-- Witness for the amended claim C2, at concrete failing outcomes for
every stage. -/
theorem nonmandatory_stage_failure_copies_input_witness :
    (RunOutcome.raised "oom" ≠ RunOutcome.completed 0) ∧
    (RunOutcome.completed 1 ≠ RunOutcome.completed 0) ∧ (1 ≠ 0) ∧
    (enhance_face_in_video (some "gfpgan failed") (.completed 0) (.file "a.mp4") = .file "a.mp4" ∧
     (∀ fr2, fr2 ≠ RunOutcome.completed 0 →
       enhance_face_in_video none fr2 (.file "a.mp4") = .file "a.mp4") ∧
     upscale_video_realesrgan (some "gfpgan failed") (.completed 0) (.file "a.mp4") 2 true = .file "a.mp4" ∧
     (∀ ur2, ur2 ≠ RunOutcome.completed 0 →
       upscale_video_realesrgan none ur2 (.file "a.mp4") 2 true = .file "a.mp4") ∧
     apply_color_grading (.raised "oom") (.file "a.mp4") "cinematic" = .file "a.mp4" ∧
     add_film_grain (.completed 1) (.file "a.mp4") (2/100) = .file "a.mp4" ∧
     audio_mix (.completed 1) (.file "v.mp3") none none [] {} = .ok (.file "v.mp3")) :=
  ⟨by decide, by decide, by decide,
   nonmandatory_stage_failure_copies_input (.file "a.mp4") (.file "v.mp3")
     none none [] {} "gfpgan failed" (.completed 0) (.raised "oom") (.completed 1)
     2 true "cinematic" (2/100) 1 (by decide) (by decide) (by decide)⟩

/-- The base64 alphabet (RFC 4648), as used by Python `base64.b64encode`. -/
def base64Alphabet : List Char :=
  ['A', 'B', 'C', 'D', 'E', 'F', 'G', 'H', 'I', 'J', 'K', 'L', 'M',
   'N', 'O', 'P', 'Q', 'R', 'S', 'T', 'U', 'V', 'W', 'X', 'Y', 'Z',
   'a', 'b', 'c', 'd', 'e', 'f', 'g', 'h', 'i', 'j', 'k', 'l', 'm',
   'n', 'o', 'p', 'q', 'r', 's', 't', 'u', 'v', 'w', 'x', 'y', 'z',
   '0', '1', '2', '3', '4', '5', '6', '7', '8', '9', '+', '/']

def b64char (n : Nat) : Char := base64Alphabet.getD n 'A'

/-- Standard base64 encoding of a byte sequence, modelling
`base64.b64encode(data).decode()`. -/
def base64Encode : List Nat → String
  | [] => ""
  | [a] =>
    String.mk [b64char (a / 4), b64char (a % 4 * 16)] ++ "=="
  | [a, b] =>
    String.mk [b64char (a / 4), b64char (a % 4 * 16 + b / 16),
               b64char (b % 16 * 4)] ++ "="
  | a :: b :: c :: rest =>
    String.mk [b64char (a / 4), b64char (a % 4 * 16 + b / 16),
               b64char (b % 16 * 4 + c / 64), b64char (c % 64)] ++
    base64Encode rest

example : base64Encode [77, 97, 110] = "TWFu" := by decide

example : base64Encode [77, 97] = "TWE=" := by decide

/-- `upload_to_r2` (handler.py lines 460-489).  With no R2 endpoint
configured the file bytes are embedded as a base64 data URI whose MIME
prefix is chosen by the local file extension; otherwise the object is
uploaded and the public URL is returned. -/
def upload_to_r2 (endpoint publicUrl : String) (fileBytes : List Nat)
    (suffix remoteKey : String) : String :=
  if endpoint = "" then
    "data:" ++ (if suffix = ".mp4" then "video/mp4" else "image/png") ++
      ";base64," ++ base64Encode fileBytes
  else
    publicUrl ++ "/" ++ remoteKey

/-- Claim C8: when no storage endpoint is configured the published
location is an embedded base64 data URI of the artifact bytes with a MIME
prefix chosen by file extension, instead of the URL that a configured
endpoint would produce. -/
theorem no_endpoint_publishes_data_uri (publicUrl : String)
    (fileBytes : List Nat) (suffix remoteKey : String) :
    upload_to_r2 "" publicUrl fileBytes suffix remoteKey =
      "data:" ++ (if suffix = ".mp4" then "video/mp4" else "image/png") ++
        ";base64," ++ base64Encode fileBytes ∧
    ∀ endpoint, endpoint ≠ "" →
      upload_to_r2 endpoint publicUrl fileBytes suffix remoteKey =
        publicUrl ++ "/" ++ remoteKey := by
  constructor
  · simp [upload_to_r2]
  · intro endpoint he
    simp [upload_to_r2, he]

/-- Witness for claim C8 at concrete bytes and endpoint. -/
theorem no_endpoint_publishes_data_uri_witness :
    upload_to_r2 "" "https://pub" [77, 97, 110] ".mp4" "videos/j/output.mp4" =
      "data:" ++ "video/mp4" ++ ";base64," ++ base64Encode [77, 97, 110] ∧
    (("https://r2.example" : String) ≠ "") ∧
    upload_to_r2 "https://r2.example" "https://pub" [77, 97, 110] ".mp4"
        "videos/j/output.mp4" = "https://pub" ++ "/" ++ "videos/j/output.mp4" :=
  ⟨by simpa using
      (no_endpoint_publishes_data_uri "https://pub" [77, 97, 110] ".mp4"
        "videos/j/output.mp4").1,
   by decide,
   (no_endpoint_publishes_data_uri "https://pub" [77, 97, 110] ".mp4"
      "videos/j/output.mp4").2 "https://r2.example" (by decide)⟩

/-- A video frame, abstracted as a pixel-indexed array of intensities. -/
def Frame : Type := Nat → ℚ

/-- The all-zero frame, used as the out-of-range default for list access. -/
def frame0 : Frame := fun _ => 0

/-- `cv2.addWeighted(src1, alpha, src2, beta, 0)`: the pixelwise weighted
sum of two frames. -/
def addWeighted (src1 : Frame) (alpha : ℚ) (src2 : Frame) (beta : ℚ) : Frame :=
  fun p => alpha * src1 p + beta * src2 p

/-- The frame loop of `upscale_video_realesrgan` (handler.py lines
339-362): each frame is upscaled; with temporal smoothing on and a
previous frame available the upscaled frame is blended as
`addWeighted(upscaled, 0.85, prev_frame, 0.15, 0)`, and `prev_frame` is
then set to the (blended) frame that was written out. -/
def upscaleFrameLoop (upsample : Frame → Frame)
    (apply_temporal_smoothing : Bool) :
    Option Frame → List Frame → List Frame
  | _, [] => []
  | prev, f :: rest =>
    let up := upsample f
    let blended :=
      match apply_temporal_smoothing, prev with
      | true, some pf => addWeighted up (85/100) pf (15/100)
      | _, _ => up
    blended :: upscaleFrameLoop upsample apply_temporal_smoothing (some blended) rest

theorem upscaleFrameLoop_length (upsample : Frame → Frame) (smooth : Bool) :
    ∀ (frames : List Frame) (prev : Option Frame),
      (upscaleFrameLoop upsample smooth prev frames).length = frames.length := by
  intro frames
  induction frames with
  | nil => intro prev; rfl
  | cons f rest ih => intro prev; simp [upscaleFrameLoop, ih]

theorem upscaleFrameLoop_getD_succ (upsample : Frame → Frame) :
    ∀ (frames : List Frame) (prev : Option Frame) (i : Nat),
      i + 1 < frames.length →
      (upscaleFrameLoop upsample true prev frames).getD (i + 1) frame0 =
        addWeighted (upsample (frames.getD (i + 1) frame0)) (85/100)
          ((upscaleFrameLoop upsample true prev frames).getD i frame0) (15/100) := by
  intro frames
  induction frames with
  | nil => intro prev i h; simp at h
  | cons f rest ih =>
    intro prev i h
    match rest, i with
    | [], 0 => simp at h
    | g :: rest2, 0 =>
      simp [upscaleFrameLoop, List.getD]
    | g :: rest2, i + 1 =>
      have h2 : i + 1 < (g :: rest2).length := by
        simpa using Nat.lt_of_succ_lt_succ h
      have := ih (some (match true, prev with
        | true, some pf => addWeighted (upsample f) (85/100) pf (15/100)
        | _, _ => upsample f)) i h2
      simpa [upscaleFrameLoop, List.getD] using this

/-- Claim C9: with temporal smoothing enabled, the first output frame is
the upscaled first input frame passed through unblended, and every output
frame after the first is the weighted blend of 0.85 times the current
upscaled frame and 0.15 times the previous output frame. -/
theorem temporal_smoothing_blend_recurrence (upsample : Frame → Frame)
    (frames : List Frame) :
    (upscaleFrameLoop upsample true none frames).length = frames.length ∧
    (∀ f0 rest, frames = f0 :: rest →
      (upscaleFrameLoop upsample true none frames).head? = some (upsample f0)) ∧
    (∀ i, i + 1 < frames.length →
      (upscaleFrameLoop upsample true none frames).getD (i + 1) frame0 =
        addWeighted (upsample (frames.getD (i + 1) frame0)) (85/100)
          ((upscaleFrameLoop upsample true none frames).getD i frame0) (15/100)) := by
  refine ⟨upscaleFrameLoop_length upsample true frames none, ?_, ?_⟩
  · intro f0 rest hf
    subst hf
    rfl
  · intro i h
    exact upscaleFrameLoop_getD_succ upsample frames none i h

/-- Two concrete frames used by the claim C9 witness. -/
def frameA : Frame := fun _ => 1

def frameB : Frame := fun _ => 2

/-- Witness for claim C9 on a concrete two-frame video. -/
theorem temporal_smoothing_blend_recurrence_witness :
    ([frameA, frameB] = frameA :: [frameB] ∧
      (upscaleFrameLoop id true none [frameA, frameB]).head? = some (id frameA)) ∧
    (0 + 1 < ([frameA, frameB] : List Frame).length ∧
      (upscaleFrameLoop id true none [frameA, frameB]).getD (0 + 1) frame0 =
        addWeighted (id (([frameA, frameB] : List Frame).getD (0 + 1) frame0)) (85/100)
          ((upscaleFrameLoop id true none [frameA, frameB]).getD 0 frame0) (15/100)) :=
  ⟨⟨rfl, (temporal_smoothing_blend_recurrence id [frameA, frameB]).2.1 frameA [frameB] rfl⟩,
   ⟨by decide, (temporal_smoothing_blend_recurrence id [frameA, frameB]).2.2 0 (by decide)⟩⟩

/-- Outcome of the MuseTalk primary inference attempt: success, an
ImportError (handled by falling back to Wav2Lip), or any other exception
(handled by falling back to the static ffmpeg mux). -/
inductive MuseTalkOutcome where
  | ok
  | importError (msg : String)
  | otherError (msg : String)
deriving DecidableEq, Repr

/-- `run_ffmpeg_fallback` (handler.py lines 868-890): a check=True ffmpeg
mux of the still image with the audio track; it is not wrapped in any
try block, so a failing invocation raises out of the synthesis chain. -/
def run_ffmpeg_fallback (run : RunOutcome) (image voice : Media) :
    Except String Media := do
  let _ ← runChecked run
  pure (.staticMux image voice)

/-- `run_wav2lip_fallback` (handler.py lines 823-866): the whole attempt
(dependency install, clone, checkpoint check, inference) is one try block
whose except clause calls `run_ffmpeg_fallback`.  `wav2lipExc` is `some
msg` when anything in the body raises. -/
def run_wav2lip_fallback (wav2lipExc : Option String) (ffmpegRun : RunOutcome)
    (image voice : Media) (fps : Nat) : Except String Media :=
  match wav2lipExc with
  | none => pure (.wav2lip image voice fps)
  | some _ => run_ffmpeg_fallback ffmpegRun image voice

/-- `run_musetalk_inference` (handler.py lines 746-821): resolves the
quality preset, attempts MuseTalk, falls back to Wav2Lip on ImportError
and to the static ffmpeg mux on any other exception. -/
def run_musetalk_inference (musetalk : MuseTalkOutcome)
    (wav2lipExc : Option String) (ffmpegRun : RunOutcome)
    (image voice : Media) (quality : String) : Except String Media :=
  let preset := resolvePreset quality
  match musetalk with
  | .ok => pure (.musetalk image voice preset.fps preset.batch_size)
  | .importError _ => run_wav2lip_fallback wav2lipExc ffmpegRun image voice preset.fps
  | .otherError _ => run_ffmpeg_fallback ffmpegRun image voice

/-- The outcomes of every external step one job may perform.  Each field
is consumed by exactly one stage invocation of the handlers below. -/
structure JobOracle where
  musetalk : MuseTalkOutcome := .ok
  wav2lipExc : Option String := none
  ffmpegFallbackRun : RunOutcome := .completed 0
  gfpganExc : Option String := none
  faceRemuxRun : RunOutcome := .completed 0
  upscaleExc : Option String := none
  upscaleRemuxRun : RunOutcome := .completed 0
  colorRun : RunOutcome := .completed 0
  grainRun : RunOutcome := .completed 0
  mixRun : RunOutcome := .completed 0
  captionRun : RunOutcome := .completed 0
  finalEncodeRun : RunOutcome := .completed 0
  personaTakeRun : RunOutcome := .completed 0
  voiceProbeDuration : ℚ := 10
deriving Repr

/-- The fields of the incoming `job_input` dict that the handlers read.
`driven_audioData` and `audioData` model the keys "driven_audio" and
"audio". -/
structure JobInput where
  job_type : Option String := none
  source_image : Option String := none
  image : Option String := none
  driven_audioData : Option String := none
  audioData : Option String := none
  quality : Option String := none
  job_id : Option String := none
  face_enhance : Option Bool := none
  music_url : Option String := none
  ambience_url : Option String := none
  sfx_tracks : List SfxSpec := []
  captions : List Caption := []
  caption_style : CaptionStyle := {}
  ducking_config : Option DuckingConfig := none
  format : Option FormatSpec := none
  persona_id : Option String := none
  primary_image : Option String := none
  takes_to_generate : Option (List TakeSpec) := none
deriving Repr

/-- Python `a or b` on two optional strings: the empty string is falsy. -/
def pyOr (a b : Option String) : Option String :=
  match a with
  | some s => if s = "" then b else some s
  | none => b

/-- The AttributeError raised by `None.startswith("http")` when both
naming variants of a required input are missing. -/
def noneAttrError : String :=
  "AttributeError: NoneType object has no attribute startswith"

/-- Environment configuration: the R2 endpoint and public URL, plus the
byte contents the scratch files would hold for each artifact (consumed
only when publication falls back to data URIs). -/
structure Env where
  r2Endpoint : String := ""
  r2PublicUrl : String := "https://personaforge-studio.r2.dev"
  bytesOf : Media → List Nat := fun _ => []

/-- Per-job metadata for a lipsync_only result (handler.py lines
1234-1243; the wall-clock field processing_ms is not modelled). -/
structure LipsyncMeta where
  quality : String
  preset : Preset
  face_enhance : Bool
  upscaled : Bool
  upscale_factor : Nat
  color_graded : Bool
  job_id : String
deriving DecidableEq, Repr

/-- Per-job metadata for a video_render result (handler.py lines
1440-1449). -/
structure RenderMeta where
  job_id : String
  quality : String
  preset : Preset
  upscaled : Bool
  upscale_factor : Nat
  color_graded : Bool
  duration : ℚ
  format : FormatSpec
deriving DecidableEq, Repr

/-- One generated persona take (handler.py lines 1498-1504). -/
structure Take where
  id : String
  emotion : String
  angle : String
  video_url : String
  duration : Nat
deriving DecidableEq, Repr

/-- Per-job metadata for a persona_build result (handler.py lines
1511-1514). -/
structure PersonaMeta where
  persona_id : String
  base_takes : List Take
deriving DecidableEq, Repr

/-- The metadata dict of a JobResult, shaped per job type. -/
inductive MetaV where
  | lipsync (m : LipsyncMeta)
  | render (m : RenderMeta)
  | persona (m : PersonaMeta)
deriving DecidableEq, Repr

/-- The `JobResult` dataclass (handler.py lines 143-149); duration_ms is
wall-clock time, modelled as 0. -/
structure JobResult where
  success : Bool
  output_urls : List (String × String)
  metadata : MetaV
  duration_ms : Nat
  error : Option String := none
deriving DecidableEq, Repr

/-- `handle_lipsync_only` (handler.py lines 1115-1245): resolve inputs,
run the synthesis chain, then the tier-conditioned optional stages, the
final check=True encode, and publication.  Python exceptions are the
`.error` branch of the result. -/
def handle_lipsync_only (env : Env) (o : JobOracle) (j : JobInput) :
    Except String JobResult :=
  match pyOr j.source_image j.image, pyOr j.driven_audioData j.audioData with
  | none, _ => .error noneAttrError
  | some _, none => .error noneAttrError
  | some imageData, some audioData =>
    let quality := j.quality.getD "standard"
    let job_id := j.job_id.getD "job_0"
    let preset := resolvePreset quality
    let face_enhance := j.face_enhance.getD preset.face_enhance
    let image := Media.file imageData
    let voice := Media.file audioData
    match run_musetalk_inference o.musetalk o.wav2lipExc o.ffmpegFallbackRun
        image voice quality with
    | .error e => .error e
    | .ok lipsyncOut =>
      let cur1 := if face_enhance then
          enhance_face_in_video o.gfpganExc o.faceRemuxRun lipsyncOut
        else lipsyncOut
      let cur2 := if preset.upscale then
          upscale_video_realesrgan o.upscaleExc o.upscaleRemuxRun cur1
            preset.upscale_factor preset.temporal_smoothing
        else cur1
      let cur3 := if preset.color_grading then
          apply_color_grading o.colorRun cur2 "cinematic"
        else cur2
      let cur4 := if preset.film_grain > 0 then
          add_film_grain o.grainRun cur3 preset.film_grain
        else cur3
      match runChecked o.finalEncodeRun with
      | .error e => .error e
      | .ok _ =>
        let finalMedia := Media.encoded cur4 preset.crf preset.preset
          preset.video_bitrate preset.audio_bitrate
        let url := upload_to_r2 env.r2Endpoint env.r2PublicUrl
          (env.bytesOf finalMedia) ".mp4" ("videos/" ++ job_id ++ "/output.mp4")
        .ok {
          success := true
          output_urls := [("video", url)]
          metadata := .lipsync {
            quality := quality
            preset := preset
            face_enhance := face_enhance
            upscaled := preset.upscale
            upscale_factor := preset.upscale_factor
            color_graded := preset.color_grading
            job_id := job_id }
          duration_ms := 0 }

/-- `handle_video_render` (handler.py lines 1247-1452): synthesis, face
enhancement and upscale gated on the preset, the audio mix, the caption
burn (skipped at the call site when the caption list is empty), color
grading, film grain, and the final check=True mux of visual and mixed
audio, plus thumbnail extraction. -/
def handle_video_render (env : Env) (o : JobOracle) (j : JobInput) :
    Except String JobResult :=
  match pyOr j.source_image j.image, pyOr j.driven_audioData j.audioData with
  | none, _ => .error noneAttrError
  | some _, none => .error noneAttrError
  | some imageData, some audioData =>
    let job_id := j.job_id.getD "job_0"
    let quality := j.quality.getD "standard"
    let preset := resolvePreset quality
    let image := Media.file imageData
    let voice := Media.file audioData
    match run_musetalk_inference o.musetalk o.wav2lipExc o.ffmpegFallbackRun
        image voice quality with
    | .error e => .error e
    | .ok lipsyncOut =>
      let cur1 := if preset.face_enhance then
          enhance_face_in_video o.gfpganExc o.faceRemuxRun lipsyncOut
        else lipsyncOut
      let cur2 := if preset.upscale then
          upscale_video_realesrgan o.upscaleExc o.upscaleRemuxRun cur1
            preset.upscale_factor preset.temporal_smoothing
        else cur1
      let total_duration := o.voiceProbeDuration
      let ducking := j.ducking_config.getD {}
      match audio_mix o.mixRun voice j.music_url j.ambience_url
          j.sfx_tracks ducking with
      | .error e => .error e
      | .ok mixedTrack =>
        let capRes : Except String Media :=
          if j.captions.isEmpty then .ok cur2
          else
            match burn_captions o.captionRun cur2 j.captions j.caption_style with
            | .ok r => .ok r.1
            | .error e => .error e
        match capRes with
        | .error e => .error e
        | .ok cur3 =>
          let cur4 := if preset.color_grading then
              apply_color_grading o.colorRun cur3 "cinematic"
            else cur3
          let cur5 := if preset.film_grain > 0 then
              add_film_grain o.grainRun cur4 preset.film_grain
            else cur4
          match runChecked o.finalEncodeRun with
          | .error e => .error e
          | .ok _ =>
            let finalMedia := Media.muxed cur5 mixedTrack preset.crf
              preset.preset preset.video_bitrate preset.audio_bitrate
            let thumb := Media.thumbnail finalMedia
            let video_url := upload_to_r2 env.r2Endpoint env.r2PublicUrl
              (env.bytesOf finalMedia) ".mp4" ("videos/" ++ job_id ++ "/final.mp4")
            let thumbnail_url := upload_to_r2 env.r2Endpoint env.r2PublicUrl
              (env.bytesOf thumb) ".jpg" ("videos/" ++ job_id ++ "/thumbnail.jpg")
            .ok {
              success := true
              output_urls := [("video", video_url), ("thumbnail", thumbnail_url)]
              metadata := .render {
                job_id := job_id
                quality := quality
                preset := preset
                upscaled := preset.upscale
                upscale_factor := preset.upscale_factor
                color_graded := preset.color_grading
                duration := total_duration
                format := j.format.getD {} }
              duration_ms := 0 }

/-- The take loop of `handle_persona_build` (handler.py lines 1477-1504):
each take renders a 5 second idle loop of the primary image with a
check=True ffmpeg run, then publishes it. -/
def buildTakesLoop (env : Env) (run : RunOutcome) (personaId : String)
    (image : Media) : Nat → List TakeSpec → Except String (List Take)
  | _, [] => .ok []
  | i, spec :: rest =>
    match runChecked run with
    | .error e => .error e
    | .ok _ =>
      let takeId := personaId ++ "_take_" ++ toString i
      let url := upload_to_r2 env.r2Endpoint env.r2PublicUrl
        (env.bytesOf (Media.idleLoop image 5)) ".mp4"
        ("personas/" ++ personaId ++ "/takes/" ++ takeId ++ ".mp4")
      match buildTakesLoop env run personaId image (i + 1) rest with
      | .error e => .error e
      | .ok takes =>
        .ok ({ id := takeId, emotion := spec.emotion, angle := spec.angle,
               video_url := url, duration := 5 } :: takes)

/-- `handle_persona_build` (handler.py lines 1454-1516).  A missing
persona_id renders as the string "None" in the formatted identifiers; a
missing primary_image raises the same AttributeError as the other
handlers. -/
def handle_persona_build (env : Env) (o : JobOracle) (j : JobInput) :
    Except String JobResult :=
  let personaId := j.persona_id.getD "None"
  match j.primary_image with
  | none => .error noneAttrError
  | some primary =>
    let image := Media.file primary
    let specs := j.takes_to_generate.getD [{}]
    match buildTakesLoop env o.personaTakeRun personaId image 0 specs with
    | .error e => .error e
    | .ok takes =>
      .ok {
        success := true
        output_urls := []
        metadata := .persona { persona_id := personaId, base_takes := takes }
        duration_ms := 0 }

/-- The serialized response dict of the main handler: the success branch
has output/metadata/duration_ms keys, the except branch has error and
traceback keys (handler.py lines 1541-1555). -/
structure HandlerResponse where
  success : Bool
  output : Option (List (String × String))
  metadata : Option MetaV
  duration_ms : Option Nat
  error : Option String
  traceback : Option String
deriving DecidableEq, Repr

/-- Packaging of a job outcome into the response dict: the try/except of
`handler` (handler.py lines 1531-1555). -/
def toResponse : Except String JobResult → HandlerResponse
  | .ok r =>
    { success := r.success, output := some r.output_urls,
      metadata := some r.metadata, duration_ms := some r.duration_ms,
      error := none, traceback := none }
  | .error e =>
    { success := false, output := none, metadata := none,
      duration_ms := none, error := some e, traceback := some e }

/-- The main RunPod `handler` (handler.py lines 1522-1555): a missing
job_type key defaults to "lipsync_only"; the three known job types
dispatch to their handlers; any other value raises ValueError, which the
surrounding except turns into the failure-shaped response. -/
def handler (env : Env) (o : JobOracle) (j : JobInput) : HandlerResponse :=
  let job_type := j.job_type.getD "lipsync_only"
  toResponse
    (if job_type = "lipsync_only" then handle_lipsync_only env o j
     else if job_type = "video_render" then handle_video_render env o j
     else if job_type = "persona_build" then handle_persona_build env o j
     else .error ("Unknown job type: " ++ job_type))

/-- Inversion of a successful lipsync_only job: the result has success
true and its metadata echoes the requested configuration. -/
theorem handle_lipsync_only_ok_shape (env : Env) (o : JobOracle) (j : JobInput)
    (r : JobResult) (h : handle_lipsync_only env o j = .ok r) :
    r.success = true ∧
    r.metadata = .lipsync {
      quality := j.quality.getD "standard"
      preset := resolvePreset (j.quality.getD "standard")
      face_enhance := j.face_enhance.getD
        (resolvePreset (j.quality.getD "standard")).face_enhance
      upscaled := (resolvePreset (j.quality.getD "standard")).upscale
      upscale_factor := (resolvePreset (j.quality.getD "standard")).upscale_factor
      color_graded := (resolvePreset (j.quality.getD "standard")).color_grading
      job_id := j.job_id.getD "job_0" } := by
  simp only [handle_lipsync_only] at h
  split at h
  · exact Except.noConfusion h
  · exact Except.noConfusion h
  · split at h
    · exact Except.noConfusion h
    · split at h
      · exact Except.noConfusion h
      · cases h
        exact ⟨rfl, rfl⟩

/-- Inversion of a successful video_render job: the result has success
true and its metadata echoes the preset configuration (there is no
face-enhance key at all in render metadata). -/
theorem handle_video_render_ok_shape (env : Env) (o : JobOracle) (j : JobInput)
    (r : JobResult) (h : handle_video_render env o j = .ok r) :
    r.success = true ∧
    r.metadata = .render {
      job_id := j.job_id.getD "job_0"
      quality := j.quality.getD "standard"
      preset := resolvePreset (j.quality.getD "standard")
      upscaled := (resolvePreset (j.quality.getD "standard")).upscale
      upscale_factor := (resolvePreset (j.quality.getD "standard")).upscale_factor
      color_graded := (resolvePreset (j.quality.getD "standard")).color_grading
      duration := o.voiceProbeDuration
      format := j.format.getD {} } := by
  simp only [handle_video_render] at h
  split at h
  · exact Except.noConfusion h
  · exact Except.noConfusion h
  · split at h
    · exact Except.noConfusion h
    · split at h
      · exact Except.noConfusion h
      · split at h
        · exact Except.noConfusion h
        · split at h
          · exact Except.noConfusion h
          · cases h
            exact ⟨rfl, rfl⟩

/-- Inversion of a successful persona_build job: the result has success
true. -/
theorem handle_persona_build_ok_success (env : Env) (o : JobOracle)
    (j : JobInput) (r : JobResult) (h : handle_persona_build env o j = .ok r) :
    r.success = true := by
  simp only [handle_persona_build] at h
  split at h
  · exact Except.noConfusion h
  · split at h
    · exact Except.noConfusion h
    · cases h
      rfl

/-- An environment with no R2 endpoint configured. -/
def envNoR2 : Env := {}

/-- A job oracle in which every external step succeeds. -/
def allOkOracle : JobOracle := {}

/-- A job oracle in which the face-restoration stage's processing raises,
so the stage falls back to copying its input forward (handler.py lines
962-965). -/
def faceFailOracle : JobOracle :=
  { gfpganExc := some "GFPGAN enhancement failed: CUDA out of memory" }

/-- A standard-tier lipsync_only job with concrete inputs. -/
def standardLipsyncJob : JobInput :=
  { job_type := some "lipsync_only", source_image := some "http://cdn/face.png",
    driven_audioData := some "http://cdn/voice.mp3",
    quality := some "standard", job_id := some "jobA" }

/-- The synthesis output of `standardLipsyncJob` when MuseTalk succeeds. -/
def standardLipsyncMedia : Media :=
  .musetalk (.file "http://cdn/face.png") (.file "http://cdn/voice.mp3") 30 4

/-- Claim C1 counterexample: on a standard-tier lipsync_only job whose
face-restoration stage fails (the oracle forces its primary method to
raise, so the stage copies its input forward - third conjunct), the job
returns success true, but the metadata reports face_enhance as the value
requested by the tier, namely true, not false as the claim states. -/
theorem face_fallback_metadata_still_reports_requested :
    (handle_lipsync_only envNoR2 faceFailOracle standardLipsyncJob).map
      (fun r => (r.success, r.metadata)) =
    .ok (true, .lipsync {
      quality := "standard", preset := standardPreset, face_enhance := true,
      upscaled := false, upscale_factor := 1, color_graded := false,
      job_id := "jobA" }) ∧
    enhance_face_in_video faceFailOracle.gfpganExc faceFailOracle.faceRemuxRun
      standardLipsyncMedia = standardLipsyncMedia := by
  exact ⟨rfl, rfl⟩

/-- Claim C1 amended: for every lipsync_only or video_render job that
completes, the job returns success true and its metadata reports the
requested/configured stage flags - face_enhance as requested by the job
input or tier preset, upscaled and color_graded straight from the tier
preset - independent of whether those stages actually applied; render
metadata carries no face-enhance flag at all. -/
theorem optional_stage_metadata_echoes_request (env : Env) (o : JobOracle)
    (j : JobInput) (r r2 : JobResult)
    (h : handle_lipsync_only env o j = .ok r)
    (h2 : handle_video_render env o j = .ok r2) :
    (r.success = true ∧
      r.metadata = .lipsync {
        quality := j.quality.getD "standard"
        preset := resolvePreset (j.quality.getD "standard")
        face_enhance := j.face_enhance.getD
          (resolvePreset (j.quality.getD "standard")).face_enhance
        upscaled := (resolvePreset (j.quality.getD "standard")).upscale
        upscale_factor := (resolvePreset (j.quality.getD "standard")).upscale_factor
        color_graded := (resolvePreset (j.quality.getD "standard")).color_grading
        job_id := j.job_id.getD "job_0" }) ∧
    (r2.success = true ∧
      r2.metadata = .render {
        job_id := j.job_id.getD "job_0"
        quality := j.quality.getD "standard"
        preset := resolvePreset (j.quality.getD "standard")
        upscaled := (resolvePreset (j.quality.getD "standard")).upscale
        upscale_factor := (resolvePreset (j.quality.getD "standard")).upscale_factor
        color_graded := (resolvePreset (j.quality.getD "standard")).color_grading
        duration := o.voiceProbeDuration
        format := j.format.getD {} }) :=
  ⟨handle_lipsync_only_ok_shape env o j r h,
   handle_video_render_ok_shape env o j r2 h2⟩

/-- Witness for the amended claim C1 on a concrete standard-tier job with
a failing face-restoration stage. -/
theorem optional_stage_metadata_echoes_request_witness :
    ((handle_lipsync_only envNoR2 faceFailOracle standardLipsyncJob).toOption.getD
        { success := false, output_urls := [], metadata := .persona ⟨"", []⟩,
          duration_ms := 0 }).success = true ∧
    ((handle_video_render envNoR2 faceFailOracle standardLipsyncJob).toOption.getD
        { success := false, output_urls := [], metadata := .persona ⟨"", []⟩,
          duration_ms := 0 }).success = true :=
  ⟨((optional_stage_metadata_echoes_request envNoR2 faceFailOracle
      standardLipsyncJob _ _ rfl rfl).1).1,
   ((optional_stage_metadata_echoes_request envNoR2 faceFailOracle
      standardLipsyncJob _ _ rfl rfl).2).1⟩

/-- A job oracle in which launching the audio-mix ffmpeg command raises
(the subprocess call at handler.py line 1046 is outside any try block). -/
def mixSpawnFailOracle : JobOracle :=
  { mixRun := .raised "FileNotFoundError: No such file or directory: ffmpeg" }

/-- A video_render job with concrete inputs and default quality. -/
def renderJobDefault : JobInput :=
  { job_type := some "video_render", source_image := some "http://cdn/face.png",
    driven_audioData := some "http://cdn/voice.mp3" }

/-- Claim C2 counterexample: the audio-mix stage does not absorb every
failure.  An exception raised while invoking its ffmpeg command (the call
is outside any try block and run without check) propagates out of the
stage, and the video_render job does not proceed to completion: the
handler returns the failure-shaped response instead. -/
theorem audio_mix_spawn_error_aborts_job :
    audio_mix (.raised "FileNotFoundError: No such file or directory: ffmpeg")
        (.file "voice.mp3") none none [] {} =
      .error "FileNotFoundError: No such file or directory: ffmpeg" ∧
    handler envNoR2 mixSpawnFailOracle renderJobDefault =
      { success := false, output := none, metadata := none, duration_ms := none,
        error := some "FileNotFoundError: No such file or directory: ffmpeg",
        traceback := some "FileNotFoundError: No such file or directory: ffmpeg" } := by
  exact ⟨rfl, rfl⟩

/-- Claim C3: when MuseTalk fails with an ImportError and the Wav2Lip
alternate also fails, the terminal fallback is the static-image-plus-audio
mux; if that terminal fallback succeeds the synthesis stage yields the mux
artifact, and if it fails the whole job is fatal: the handler returns
success false with a populated error and no output mapping.  In general
the handler never returns an unsuccessful response without a populated
error field. -/
theorem synthesis_exhaustion_returns_failure_record
    (env : Env) (o : JobOracle) (j : JobInput) (t imgD audD em ew : String)
    (ht : j.job_type = some t)
    (htt : t = "lipsync_only" ∨ t = "video_render")
    (hi : pyOr j.source_image j.image = some imgD)
    (ha : pyOr j.driven_audioData j.audioData = some audD)
    (hm : o.musetalk = .importError em)
    (hw : o.wav2lipExc = some ew) :
    (o.ffmpegFallbackRun = .completed 0 →
      ∀ q image voice,
        run_musetalk_inference o.musetalk o.wav2lipExc o.ffmpegFallbackRun
          image voice q = .ok (.staticMux image voice)) ∧
    (∀ msg, runChecked o.ffmpegFallbackRun = .error msg →
      handler env o j =
        { success := false, output := none, metadata := none,
          duration_ms := none, error := some msg, traceback := some msg }) ∧
    (∀ env2 o2 j2, (handler env2 o2 j2).success = false →
      (handler env2 o2 j2).error.isSome = true) := by
  refine ⟨?_, ?_, ?_⟩
  · intro hff q image voice
    simp only [run_musetalk_inference, hm, hw, hff]
    rfl
  · intro msg hbad
    have hsyn : ∀ image voice q,
        run_musetalk_inference o.musetalk o.wav2lipExc o.ffmpegFallbackRun
          image voice q = .error msg := by
      intro image voice q
      simp only [run_musetalk_inference, hm, hw]
      simp [run_wav2lip_fallback, run_ffmpeg_fallback, hbad]
    rcases htt with h | h <;> subst h
    · simp [handler, ht, handle_lipsync_only, hi, ha, hsyn, toResponse]
    · simp [handler, ht, handle_video_render, hi, ha, hsyn, toResponse]
  · intro env2 o2 j2
    have hh : handler env2 o2 j2 = toResponse
        (if j2.job_type.getD "lipsync_only" = "lipsync_only" then
          handle_lipsync_only env2 o2 j2
        else if j2.job_type.getD "lipsync_only" = "video_render" then
          handle_video_render env2 o2 j2
        else if j2.job_type.getD "lipsync_only" = "persona_build" then
          handle_persona_build env2 o2 j2
        else .error ("Unknown job type: " ++ j2.job_type.getD "lipsync_only")) := rfl
    rw [hh]
    have hok : ∀ r, (if j2.job_type.getD "lipsync_only" = "lipsync_only" then
          handle_lipsync_only env2 o2 j2
        else if j2.job_type.getD "lipsync_only" = "video_render" then
          handle_video_render env2 o2 j2
        else if j2.job_type.getD "lipsync_only" = "persona_build" then
          handle_persona_build env2 o2 j2
        else .error ("Unknown job type: " ++ j2.job_type.getD "lipsync_only")) = .ok r →
        r.success = true := by
      intro r hr
      split at hr
      · exact (handle_lipsync_only_ok_shape env2 o2 j2 r hr).1
      · split at hr
        · exact (handle_video_render_ok_shape env2 o2 j2 r hr).1
        · split at hr
          · exact handle_persona_build_ok_success env2 o2 j2 r hr
          · exact Except.noConfusion hr
    intro hfalse
    match he : (if j2.job_type.getD "lipsync_only" = "lipsync_only" then
          handle_lipsync_only env2 o2 j2
        else if j2.job_type.getD "lipsync_only" = "video_render" then
          handle_video_render env2 o2 j2
        else if j2.job_type.getD "lipsync_only" = "persona_build" then
          handle_persona_build env2 o2 j2
        else .error ("Unknown job type: " ++ j2.job_type.getD "lipsync_only")) with
    | .ok r =>
      rw [he] at hfalse
      have := hok r he
      simp [toResponse, this] at hfalse
    | .error m =>
      simp [toResponse]

/-- A job oracle in which MuseTalk, Wav2Lip and the terminal static-mux
fallback all fail. -/
def synthesisDeadOracle : JobOracle :=
  { musetalk := .importError "No module named musetalk",
    wav2lipExc := some "Wav2Lip model not available",
    ffmpegFallbackRun := .completed 1 }

/-- Witness for claim C3 on a concrete lipsync_only job whose whole
synthesis chain fails. -/
theorem synthesis_exhaustion_returns_failure_record_witness :
    handler envNoR2 synthesisDeadOracle standardLipsyncJob =
      { success := false, output := none, metadata := none, duration_ms := none,
        error := some "CalledProcessError: returncode 1",
        traceback := some "CalledProcessError: returncode 1" } :=
  (synthesis_exhaustion_returns_failure_record envNoR2 synthesisDeadOracle
    standardLipsyncJob "lipsync_only" "http://cdn/face.png" "http://cdn/voice.mp3"
    "No module named musetalk" "Wav2Lip model not available"
    rfl (Or.inl rfl) rfl rfl rfl rfl).2.1
    "CalledProcessError: returncode 1" rfl

/-- Claim C6: a job whose declared job_type is none of the three known
values yields the failure-shaped response (success false with an error
string).  The right-hand side does not mention the oracle, so the response
is the same whatever any pipeline stage would have done: the failure is
produced before any stage executes. -/
theorem unknown_job_type_fails_before_stages (env : Env) (o : JobOracle)
    (j : JobInput) (t : String) (hj : j.job_type = some t)
    (ht : t ∉ (["lipsync_only", "video_render", "persona_build"] : List String)) :
    handler env o j =
      { success := false, output := none, metadata := none, duration_ms := none,
        error := some ("Unknown job type: " ++ t),
        traceback := some ("Unknown job type: " ++ t) } := by
  simp only [List.mem_cons, List.not_mem_nil, or_false, not_or] at ht
  obtain ⟨h1, h2, h3⟩ := ht
  simp [handler, hj, h1, h2, h3, toResponse]

/-- A job with an unknown job type. -/
def unknownTypeJob : JobInput :=
  { job_type := some "image_gen", source_image := some "http://cdn/face.png",
    driven_audioData := some "http://cdn/voice.mp3" }

/-- Witness for claim C6 at the concrete unknown job type "image_gen". -/
theorem unknown_job_type_fails_before_stages_witness :
    handler envNoR2 allOkOracle unknownTypeJob =
      { success := false, output := none, metadata := none, duration_ms := none,
        error := some ("Unknown job type: " ++ "image_gen"),
        traceback := some ("Unknown job type: " ++ "image_gen") } :=
  unknown_job_type_fails_before_stages envNoR2 allOkOracle unknownTypeJob
    "image_gen" rfl (by decide)

/-- Claim C10: a request whose input omits the job_type field entirely is
routed to the lipsync_only handler - the handler behaves exactly as it
does when job_type is explicitly "lipsync_only" - rather than failing
(contrast with claim C6, where an unknown explicit value is fatal). -/
theorem missing_job_type_routes_as_lipsync_only (env : Env) (o : JobOracle)
    (j : JobInput) :
    handler env o { j with job_type := none } =
      toResponse (handle_lipsync_only env o { j with job_type := none }) ∧
    handler env o { j with job_type := none } =
      handler env o { j with job_type := some "lipsync_only" } := by
  exact ⟨rfl, rfl⟩
